import Mathlib

/-
Verification development for the synapic.net automation utilities
(the Facebook Poster job queue and the ai-yt-optimiser).

Shallow embedding conventions:
 - Python strings are Lean `String`s; Python slicing `s[:n]` is `pyslice`.
 - Outbound HTTP calls are modelled by oracle values/functions supplied in an
   environment record; `Outcome α` distinguishes a returned value from a
   raised exception.
 - The persisted JSON document `queue.json` is modelled at the document level:
   the file is either absent (`none`) or holds a whole document
   (`some (d : JMData)`); `json.dump` of the full document is modelled as
   storing the document itself.
 - Python truthiness of the values that the code tests is made explicit:
   a dict is truthy iff non-empty, a string iff non-empty, `None` is falsy.
-/

namespace Synapic

/-- Outcome of an external (HTTP / SDK) call: a returned value, or a raised
exception (broadly, anything a `try`/`except Exception` block would catch). -/
inductive Outcome (α : Type) where
  | ok (a : α)
  | exn
  deriving DecidableEq, Repr

/-- Python truthiness of an optional string: `None` and `""` are falsy. -/
def truthyOS : Option String → Bool
  | none => false
  | some s => s != ""

/-- A JSON object with string values, as the code reads dict fields
(used for the parsed `generate_seo_article` bundle). -/
abbrev SeoDict := List (String × String)

/-- Python `d.get(k, dflt)` on a string-valued dict. -/
def dget (d : SeoDict) (k dflt : String) : String :=
  match d.find? (fun kv => kv.1 == k) with
  | some kv => kv.2
  | none => dflt

/-- Python truthiness of a dict: truthy iff non-empty. -/
def truthyDict (d : SeoDict) : Bool := !d.isEmpty

/-- The dict returned by `ContentEngine.publish_content`
(content_engine.py lines 177-216): key `wordpress` present iff set,
holding `wp_result.get('id')`; key `facebook` present iff set, holding the
id returned by `FacebookPublisher.post` (None on failure). Ids are modelled
as strings; a missing/empty id is falsy. -/
structure PubResults where
  wordpress : Option (Option String) := none
  facebook : Option (Option String) := none
  deriving DecidableEq, Repr

/-- Python `any(publish_results.values())`: some value of the dict is truthy. -/
def PubResults.anyTruthy (r : PubResults) : Bool :=
  (match r.wordpress with
   | some v => truthyOS v
   | none => false)
  ||
  (match r.facebook with
   | some v => truthyOS v
   | none => false)

/-- One record of `posted_log` (scheduler_job.py lines 94-101 and 194-200):
`run_job` entries have no `scheduled_for`/`status`; `batch_schedule` entries
carry both. -/
structure LogEntry where
  topic : String
  timestamp : String
  scheduled_for : Option String
  status : Option String
  post_ids : PubResults
  deriving DecidableEq, Repr

/-- The persisted `queue.json` document (scheduler_job.py lines 13-21):
`selected_model` and `interval_minutes` are read with `.get`, so they may be
absent; the other four keys are present in every document the program writes. -/
structure JMData where
  topics_queue : List String
  posted_log : List LogEntry
  target_page_id : String
  target_page_token : String
  selected_model : Option String
  interval_minutes : Option Nat
  deriving DecidableEq, Repr

/-- The default document created by `load_data` when `queue.json` is absent
(scheduler_job.py line 17). -/
def defaultData : JMData :=
  { topics_queue := []
    posted_log := []
    target_page_id := ""
    target_page_token := ""
    selected_model := none
    interval_minutes := none }

/-- `JobManager.load_data` (scheduler_job.py lines 13-17): return the whole
file content when the file exists, the default document otherwise. -/
def load_data : Option JMData → JMData
  | some d => d
  | none => defaultData

/-- The JobManager state: the in-memory document plus the file `queue.json`
(absent or holding a whole document). -/
structure Sys where
  data : JMData
  file : Option JMData
  deriving DecidableEq, Repr

/-- `JobManager.save_data` (scheduler_job.py lines 19-21): serialize the whole
in-memory document and write it to the file in one write. -/
def save_data (s : Sys) : Sys := { s with file := some s.data }

/-- `JobManager.add_topic` (scheduler_job.py lines 23-26): append the topic at
the end of `topics_queue`, then save. -/
def add_topic (topic : String) (s : Sys) : Sys :=
  save_data { s with data := { s.data with topics_queue := s.data.topics_queue ++ [topic] } }

/-- `JobManager.set_target_page` (scheduler_job.py lines 28-31). -/
def set_target_page (page_id page_token : String) (s : Sys) : Sys :=
  save_data { s with data := { s.data with
    target_page_id := page_id, target_page_token := page_token } }

/-- The keyword arguments `run_job`/`batch_schedule` pass to
`ContentEngine.publish_content` (scheduler_job.py lines 77-86 and 178-188). -/
structure PublishArgs where
  topic : String
  article_content : String
  social_summary : String
  image_url : Option String
  fb_page_id : String
  fb_access_token : String
  schedule_time : Option Nat
  meta_description : String
  alt_text : String
  deriving DecidableEq, Repr

/-- The unpacking of the SEO bundle and the publish call arguments of
`run_job` (scheduler_job.py lines 62-86): fields are read with `.get` and the
documented defaults; the Facebook page id/token come from the document. -/
def runArgs (d : JMData) (topic : String) (seo_data : SeoDict)
    (social_summary : String) (image_url : Option String) : PublishArgs :=
  { topic := dget seo_data "meta_title" topic
    article_content := dget seo_data "html_content" ""
    social_summary := social_summary
    image_url := image_url
    fb_page_id := d.target_page_id
    fb_access_token := d.target_page_token
    schedule_time := none
    meta_description := dget seo_data "meta_description" ""
    alt_text := dget seo_data "image_alt_text" topic }

/-- Oracle for one pass of the job loop: the outcomes of the external calls
made while processing one topic.
 - `seoData`: `generate_seo_article` either returns a parsed dict or raises
   (it raises when the underlying LLM call returned `None`, because
   `"..." in None` throws, and when the parsed JSON is not a dict).
 - `socialSummary`: `generate_social_summary` catches everything and returns
   the text or `None`; it never raises.
 - `imageUrl`: `get_image_url` catches everything; it never raises.
 - `publish`: `publish_content` as a function of the arguments passed to it,
   returning the results dict or raising.
 - `now`: the `datetime.datetime.now().isoformat()` timestamp of this pass. -/
structure RunEnv where
  seoData : Outcome SeoDict
  socialSummary : Option String
  imageUrl : Option String
  publish : PublishArgs → Outcome PubResults
  now : String

/-- `JobManager.run_job` (scheduler_job.py lines 33-110). Control flow:
empty queue returns unchanged; generation failure (raise or falsy result)
returns unchanged; a raise from the publish step is caught and returns
unchanged; when the publish results dict has at least one truthy value, the
first topic is popped, a log record is appended, and the document is saved.
(The assignment of `selected_model` to the content engine touches only the
engine object, not the document, and is not modelled.) -/
def run_job (e : RunEnv) (s : Sys) : Sys :=
  match s.data.topics_queue with
  | [] => s
  | topic :: rest =>
    match e.seoData with
    | Outcome.exn => s
    | Outcome.ok seo_data =>
      if !truthyDict seo_data || !truthyOS e.socialSummary then s
      else
        match e.publish (runArgs s.data topic seo_data
            (e.socialSummary.getD "") e.imageUrl) with
        | Outcome.exn => s
        | Outcome.ok publish_results =>
          if publish_results.anyTruthy then
            save_data { s with data := { s.data with
              topics_queue := rest
              posted_log := s.data.posted_log ++
                [{ topic := topic, timestamp := e.now, scheduled_for := none,
                   status := none, post_ids := publish_results }] } }
          else s

/-- The body of the `while self.data.get("topics_queue")` loop of
`JobManager.batch_schedule` (scheduler_job.py lines 134-219), with fuel for
termination (the entry point supplies the queue length, which suffices since
every continuing iteration pops one topic). `iter` numbers the loop passes
(each pass makes fresh external calls, drawn from `envs`); `cnt` is
`processed_count`, which advances only on success and drives the schedule
time `start + cnt * interval`. Generation failure pops the topic, saves and
continues; a raise, or a publish with no truthy result, breaks the loop. -/
def batch_go (envs : Nat → RunEnv) (interval start : Nat) :
    Nat → Nat → Nat → Sys → Sys
  | 0, _, _, s => s
  | fuel + 1, iter, cnt, s =>
    match s.data.topics_queue with
    | [] => s
    | topic :: rest =>
      match (envs iter).seoData with
      | Outcome.exn => s
      | Outcome.ok seo_data =>
        if !truthyDict seo_data || !truthyOS (envs iter).socialSummary then
          batch_go envs interval start fuel (iter + 1) cnt
            (save_data { s with data := { s.data with topics_queue := rest } })
        else
          match (envs iter).publish
              { runArgs s.data topic seo_data
                  ((envs iter).socialSummary.getD "") (envs iter).imageUrl with
                schedule_time := some (start + cnt * interval) } with
          | Outcome.exn => s
          | Outcome.ok pr =>
            if pr.anyTruthy then
              batch_go envs interval start fuel (iter + 1) (cnt + 1)
                (save_data { s with data := { s.data with
                  topics_queue := rest
                  posted_log := s.data.posted_log ++
                    [{ topic := topic, timestamp := (envs iter).now,
                       scheduled_for := some (toString (start + cnt * interval)),
                       status := some "scheduled", post_ids := pr }] } })
            else s

/-- `JobManager.batch_schedule` (scheduler_job.py lines 112-221): interval is
`self.data.get("interval_minutes", 240)`; `start` abstracts the timestamp of
`now + 15 minutes` (ISO rendering of schedule times is abstracted by
`toString`). -/
def batch_schedule (envs : Nat → RunEnv) (start : Nat) (s : Sys) : Sys :=
  batch_go envs (s.data.interval_minutes.getD 240) start
    s.data.topics_queue.length 0 0 s

/-! ### ContentEngine.publish_content (content_engine.py lines 177-216) -/

/-- The truthy dict `{'id': ..., 'link': ...}` returned by
`WordPressPublisher.post` on success (publishers.py line 270). -/
structure WpRes where
  id : Option String
  link : Option String
  deriving DecidableEq, Repr

/-- Oracle for the WordPress side of `publish_content`: whether the publisher
is configured (`wp.enabled`), the `generate_tags` result (an LLM call that
catches everything and returns text or `None`), and the outcome of `wp.post`
(`None` on failure — it catches everything and never raises). -/
structure WpEnv where
  enabled : Bool
  tags : Option String
  postResult : Option WpRes
  deriving DecidableEq, Repr

/-- Observable attempt events of `publish_content`, in call order: a
WordPress post attempt, and a Facebook post attempt carrying the message
passed to `fb.post`. -/
inductive Ev where
  | wpPost
  | fbPost (message : String)
  deriving DecidableEq, Repr

def Ev.isWp : Ev → Bool
  | Ev.wpPost => true
  | Ev.fbPost _ => false

def Ev.isFb : Ev → Bool
  | Ev.wpPost => false
  | Ev.fbPost _ => true

/-- The Facebook message construction of `publish_content`
(content_engine.py lines 208-211): start from the social summary and append
the read-more line when `wp_link` is truthy. -/
def fbMessage (social_summary : String) (wp_link : Option String) : String :=
  match wp_link with
  | some l => if l != "" then social_summary ++ "\n\nRead more: " ++ l else social_summary
  | none => social_summary

/-- `ContentEngine.publish_content` (content_engine.py lines 177-216),
returning the results dict together with the trace of platform post attempts.
WordPress first: when enabled, `wp.post` is attempted; a truthy result sets
`results['wordpress']` and captures `wp_link`. Then Facebook: only when both
`fb_page_id` and `fb_access_token` are truthy, `fb.post` is called on the
constructed message and its id (possibly `None`) is stored under
`results['facebook']`. `fbPost` is the oracle for `FacebookPublisher.post`
(it catches everything and never raises). -/
def publish_content (topic article_content social_summary : String)
    (image_url : Option String) (fb_page_id fb_access_token : Option String)
    (schedule_time : Option Nat) (meta_description alt_text : Option String)
    (wpenv : WpEnv) (fbPost : String → Option String) : PubResults × List Ev :=
  let wpStep : Option WpRes × List Ev :=
    if wpenv.enabled then (wpenv.postResult, [Ev.wpPost]) else (none, [])
  let wp_link : Option String :=
    match wpStep.1 with
    | some r => r.link
    | none => none
  let results1 : PubResults :=
    match wpStep.1 with
    | some r => { wordpress := some r.id, facebook := none }
    | none => { wordpress := none, facebook := none }
  if truthyOS fb_page_id && truthyOS fb_access_token then
    let fb_message := fbMessage social_summary wp_link
    ({ results1 with facebook := some (fbPost fb_message) },
      wpStep.2 ++ [Ev.fbPost fb_message])
  else (results1, wpStep.2)

/-- "The WordPress post succeeded and returned a (truthy) link": the link the
read-more line is built from, when there is one. -/
def wpSuccLink (wpenv : WpEnv) : Option String :=
  if wpenv.enabled then
    match wpenv.postResult with
    | some r =>
      match r.link with
      | some l => if l != "" then some l else none
      | none => none
    | none => none
  else none

/-! ### ContentEngine API wrappers (content_engine.py) -/

/-- `ContentEngine._call_llm` (content_engine.py lines 128-153): on any raise
(HTTP error, malformed response) return `None`; otherwise return the stripped
message content. The oracle carries the extracted content string of a
well-formed response. -/
def call_llm (resp : Outcome String) : Option String :=
  match resp with
  | Outcome.exn => none
  | Outcome.ok content => some content.trim

/-- One entry of the OpenRouter models payload, with the two fields the code
reads (a payload entry lacking them makes the code raise `KeyError`, which is
caught and yields `[]`, the same as the `exn` branch). -/
structure ORModel where
  id : String
  name : String
  deriving DecidableEq, Repr

/-- `ContentEngine.get_available_free_models` (content_engine.py lines 13-35):
filter the payload for ids ending in `:free`, keep `{id, name}`, sort by name;
any error yields `[]`. The oracle carries the `data` list of a successful
response (`.get("data", [])`). -/
def get_available_free_models (resp : Outcome (List ORModel)) : List ORModel :=
  match resp with
  | Outcome.exn => []
  | Outcome.ok data =>
    let free_models := data.filter (fun m => m.id.endsWith ":free")
    free_models.mergeSort (fun a b => decide (a.name ≤ b.name))

/-- The `src` object of a Pexels photo, with the field the code reads. -/
structure PhotoSrc where
  large2x : String
  deriving DecidableEq, Repr

/-- One photo of a Pexels search response. -/
structure PexelsPhoto where
  src : PhotoSrc
  deriving DecidableEq, Repr

/-- `ContentEngine.get_image_url` (content_engine.py lines 155-175): the
`large2x` source URL of the first photo; `None` when the photo list is empty
or the request raised. The oracle carries the `photos` list of a successful
response. -/
def get_image_url (resp : Outcome (List PexelsPhoto)) : Option String :=
  match resp with
  | Outcome.exn => none
  | Outcome.ok photos =>
    match photos with
    | [] => none
    | p :: _ => some p.src.large2x

/-! ### FacebookAuth.exchange_code_for_token (auth.py lines 62-81) -/

/-- `FacebookAuth.exchange_code_for_token` (auth.py lines 62-81). There is no
`try`/`except` here: a missing auth code raises `ValueError`, a raise from
`requests.get` propagates, and a response without `access_token` raises
`Exception` — the function never returns a sentinel. The oracle carries the
`access_token` field of the response JSON when present. -/
def exchange_code_for_token (auth_code : Option String)
    (resp : Outcome (Option String)) : Except String String :=
  match auth_code with
  | none => Except.error "No auth code found. Run start_auth_flow first."
  | some _ =>
    match resp with
    | Outcome.exn => Except.error "requests error"
    | Outcome.ok none => Except.error "Failed to get token"
    | Outcome.ok (some tok) => Except.ok tok

/-! ### WordPressSettings.set_permalink_structure (wp_utils.py lines 54-108) -/

/-- `WordPressSettings.set_permalink_structure` (wp_utils.py lines 54-108):
missing credentials return `False`; any raise (HTTP error or otherwise) is
caught and returns `False`; otherwise `True` iff the structure echoed by the
response equals the requested one. The oracle carries the
`permalink_structure` field of a successful response. -/
def set_permalink_structure (hasAuth : Bool) (pat : String)
    (resp : Outcome String) : Bool :=
  if hasAuth = false then false
  else
    match resp with
    | Outcome.exn => false
    | Outcome.ok new_structure => new_structure == pat

/-! ### AIOptimizer.generate_optimization (ai_optimizer.py lines 12-48) -/

/-- Python slicing `s[:n]`: the first `n` characters (code points). -/
def pyslice (s : String) (n : Nat) : String := String.mk (s.data.take n)

/-- The prompt f-string of `generate_optimization` up to `{title}`. -/
def promptPre : String :=
  "\n        You are an expert YouTube strategist and copywriter. I need you to optimize a YouTube video based on its current details and transcript.\n\n        Here is the video information:\n        Current Title: "

/-- The prompt f-string between `{title}` and `{description}`. -/
def promptMid1 : String := "\n        Current Description: "

/-- The prompt f-string between `{description}` and `{transcript[:15000]}`. -/
def promptMid2 : String := "\n        Transcript: "

/-- The prompt f-string after the transcript slice. -/
def promptPost : String :=
  "... (truncated if too long)\n\n        Please provide the following:\n        1. 5 Clickable, SEO-optimized Titles.\n        2. An optimized Video Description (including a hook, summary, and key points).\n        3. YouTube Chapters with timestamps (00:00 format) and engaging titles.\n\n        Return the response in JSON format with the following keys:\n        - optimized_titles: list of strings\n        - optimized_description: string\n        - chapters: list of objects \x7b \x22timestamp\x22: \x22string\x22, \x22title\x22: \x22string\x22 \x7d\n        "

/-- The user prompt built by `AIOptimizer.generate_optimization`
(ai_optimizer.py lines 15-32): the title and description are interpolated in
full, the transcript only through `transcript[:15000]`. -/
def generate_optimization_prompt (title description transcript : String) : String :=
  promptPre ++ title ++ promptMid1 ++ description ++ promptMid2 ++
    pyslice transcript 15000 ++ promptPost

/-! ## Theorems -/

/-- C8: For every successful Pexels search response, `get_image_url` returns
the `large2x` source URL of the first photo in the response; it returns
`None` both when the response contains no photos and when the request
raises. -/
theorem get_image_url_spec :
    get_image_url Outcome.exn = none ∧
    get_image_url (Outcome.ok []) = none ∧
    ∀ (p : PexelsPhoto) (ps : List PexelsPhoto),
      get_image_url (Outcome.ok (p :: ps)) = some p.src.large2x :=
  ⟨rfl, rfl, fun _ _ => rfl⟩

/-- C10: `generate_optimization` includes at most the first 15000 characters
of the transcript in the prompt (the prompt is invariant under pre-truncating
the transcript to 15000 characters, and the included slice never exceeds
15000 characters), while the title and the description are interpolated in
full. -/
theorem generate_optimization_truncates_transcript
    (title description transcript : String) :
    generate_optimization_prompt title description transcript
      = promptPre ++ title ++ promptMid1 ++ description ++ promptMid2 ++
          pyslice transcript 15000 ++ promptPost ∧
    generate_optimization_prompt title description transcript
      = generate_optimization_prompt title description (pyslice transcript 15000) ∧
    (pyslice transcript 15000).length ≤ 15000 := by
  refine ⟨rfl, ?_, ?_⟩
  · unfold generate_optimization_prompt pyslice
    simp [List.take_take]
  · show (transcript.data.take 15000).length ≤ 15000
    simp [List.length_take_le]

/-- C3 (counterexample): the error-handling pattern is not uniform —
`FacebookAuth.exchange_code_for_token` does not catch and return a sentinel;
on a response without an `access_token` it raises an `Exception`. -/
theorem exchange_code_for_token_raises :
    exchange_code_for_token (some "code123") (Outcome.ok none)
      = Except.error "Failed to get token" := rfl

/-- C3 (amended): the LLM, models, image and WordPress-settings wrappers do
catch broadly and return sentinels (`None`, `[]`, `False`) instead of
raising, but the `FacebookAuth` helpers do not: `exchange_code_for_token`
raises on a missing auth code and on a failure response. -/
theorem sentinel_pattern_amended :
    call_llm Outcome.exn = none ∧
    get_available_free_models Outcome.exn = [] ∧
    get_image_url Outcome.exn = none ∧
    (∀ pat, set_permalink_structure true pat Outcome.exn = false) ∧
    (∀ pat resp, set_permalink_structure false pat resp = false) ∧
    exchange_code_for_token none Outcome.exn
      = Except.error "No auth code found. Run start_auth_flow first." ∧
    (∀ c, exchange_code_for_token (some c) (Outcome.ok none)
      = Except.error "Failed to get token") :=
  ⟨rfl, rfl, rfl, fun _ => rfl, fun _ _ => rfl, rfl, fun _ => rfl⟩

/-- C7: for every successful models-endpoint payload,
`get_available_free_models` returns exactly the `{id, name}` entries whose id
ends with `:free` (as a permutation of that filtered sublist), sorted
alphabetically (nondecreasingly) by name; for every error response or request
failure it returns the empty list. -/
theorem get_available_free_models_spec :
    get_available_free_models Outcome.exn = [] ∧
    ∀ data : List ORModel,
      (get_available_free_models (Outcome.ok data)).Perm
          (data.filter (fun m => m.id.endsWith ":free")) ∧
      (get_available_free_models (Outcome.ok data)).Pairwise
          (fun a b => a.name ≤ b.name) := by
  refine ⟨rfl, fun data => ⟨?_, ?_⟩⟩
  · exact List.mergeSort_perm _ _
  · have h := @List.sorted_mergeSort ORModel
      (fun a b : ORModel => decide (a.name ≤ b.name))
      (fun a b c hab hbc => by
        simp only [decide_eq_true_eq] at *
        exact le_trans hab hbc)
      (fun a b => by
        simp only [Bool.or_eq_true, decide_eq_true_eq]
        exact le_total a.name b.name)
      (data.filter (fun m => m.id.endsWith ":free"))
    exact h.imp (fun hab => by simpa using hab)

/-- Helper: one `run_job` call either leaves the state alone or appends to
the log (and pops the queue). -/
theorem run_job_log_suffix (e : RunEnv) (s : Sys) :
    ∃ suf, (run_job e s).data.posted_log = s.data.posted_log ++ suf := by
  unfold run_job
  split
  · exact ⟨[], by simp⟩
  · split
    · exact ⟨[], by simp⟩
    · split
      · exact ⟨[], by simp⟩
      · split
        · exact ⟨[], by simp⟩
        · split
          · exact ⟨_, rfl⟩
          · exact ⟨[], by simp⟩

/-- Helper: the batch loop only ever appends to the log. -/
theorem batch_go_log_suffix (envs : Nat → RunEnv) (interval start : Nat) :
    ∀ (fuel iter cnt : Nat) (s : Sys),
      ∃ suf, (batch_go envs interval start fuel iter cnt s).data.posted_log
        = s.data.posted_log ++ suf := by
  intro fuel
  induction fuel with
  | zero => intro iter cnt s; exact ⟨[], by simp [batch_go]⟩
  | succ fuel ih =>
    intro iter cnt s
    rcases hq : s.data.topics_queue with _ | ⟨topic, rest⟩
    · exact ⟨[], by simp [batch_go, hq]⟩
    rcases hseo : (envs iter).seoData with ⟨seo_data⟩ | _
    case exn => exact ⟨[], by simp [batch_go, hq, hseo]⟩
    rcases hcond : (!truthyDict seo_data || !truthyOS (envs iter).socialSummary) with _ | _
    case true =>
      obtain ⟨suf, hsuf⟩ := ih (iter + 1) cnt
        (save_data { s with data := { s.data with topics_queue := rest } })
      refine ⟨suf, ?_⟩
      have hstep : batch_go envs interval start (fuel + 1) iter cnt s
          = batch_go envs interval start fuel (iter + 1) cnt
              (save_data { s with data := { s.data with topics_queue := rest } }) := by
        simp [batch_go, hq, hseo, hcond]
      rw [hstep, hsuf]
      rfl
    case false =>
      rcases hpub : (envs iter).publish
          { runArgs s.data topic seo_data
              ((envs iter).socialSummary.getD "") (envs iter).imageUrl with
            schedule_time := some (start + cnt * interval) } with ⟨pr⟩ | _
      case exn => exact ⟨[], by simp [batch_go, hq, hseo, hcond, hpub]⟩
      rcases hpr : pr.anyTruthy with _ | _
      case false => exact ⟨[], by simp [batch_go, hq, hseo, hcond, hpub, hpr]⟩
      case true =>
        obtain ⟨suf, hsuf⟩ := ih (iter + 1) (cnt + 1)
          (save_data { s with data := { s.data with
            topics_queue := rest
            posted_log := s.data.posted_log ++
              [{ topic := topic, timestamp := (envs iter).now,
                 scheduled_for := some (toString (start + cnt * interval)),
                 status := some "scheduled", post_ids := pr }] } })
        refine ⟨[{ topic := topic, timestamp := (envs iter).now,
                   scheduled_for := some (toString (start + cnt * interval)),
                   status := some "scheduled", post_ids := pr }] ++ suf, ?_⟩
        have hstep : batch_go envs interval start (fuel + 1) iter cnt s
            = batch_go envs interval start fuel (iter + 1) (cnt + 1)
                (save_data { s with data := { s.data with
                  topics_queue := rest
                  posted_log := s.data.posted_log ++
                    [{ topic := topic, timestamp := (envs iter).now,
                       scheduled_for := some (toString (start + cnt * interval)),
                       status := some "scheduled", post_ids := pr }] } }) := by
          simp [batch_go, hq, hseo, hcond, hpub, hpr]
        rw [hstep, hsuf]
        simp [save_data]

/-- C4: `posted_log` is append-only — `load_data` reads it verbatim (or
defaults it to `[]`), `add_topic` and `set_target_page` leave it unchanged,
and `run_job` and `batch_schedule` only ever append records at its end. -/
theorem posted_log_append_only :
    (∀ d : JMData, (load_data (some d)).posted_log = d.posted_log) ∧
    ((load_data none).posted_log = []) ∧
    (∀ t s, (add_topic t s).data.posted_log = s.data.posted_log) ∧
    (∀ p q s, (set_target_page p q s).data.posted_log = s.data.posted_log) ∧
    (∀ e s, ∃ suf, (run_job e s).data.posted_log = s.data.posted_log ++ suf) ∧
    (∀ envs start s, ∃ suf,
      (batch_schedule envs start s).data.posted_log = s.data.posted_log ++ suf) := by
  refine ⟨fun _ => rfl, rfl, fun _ _ => rfl, fun _ _ _ => rfl,
    run_job_log_suffix, fun envs start s => ?_⟩
  exact batch_go_log_suffix envs _ start _ 0 0 s

/-- Helper: `run_job` either returns the state unchanged or leaves the file
holding exactly the current whole document. -/
theorem run_job_wholesale (e : RunEnv) (s : Sys) :
    run_job e s = s ∨ (run_job e s).file = some (run_job e s).data := by
  unfold run_job
  split
  · exact Or.inl rfl
  · split
    · exact Or.inl rfl
    · split
      · exact Or.inl rfl
      · split
        · exact Or.inl rfl
        · split
          · exact Or.inr rfl
          · exact Or.inl rfl

/-- Helper: the batch loop either returns the state unchanged or leaves the
file holding exactly the current whole document. -/
theorem batch_go_wholesale (envs : Nat → RunEnv) (interval start : Nat) :
    ∀ (fuel iter cnt : Nat) (s : Sys),
      batch_go envs interval start fuel iter cnt s = s ∨
      (batch_go envs interval start fuel iter cnt s).file
        = some (batch_go envs interval start fuel iter cnt s).data := by
  intro fuel
  induction fuel with
  | zero => intro iter cnt s; exact Or.inl rfl
  | succ fuel ih =>
    intro iter cnt s
    rcases hq : s.data.topics_queue with _ | ⟨topic, rest⟩
    · exact Or.inl (by simp [batch_go, hq])
    rcases hseo : (envs iter).seoData with ⟨seo_data⟩ | _
    case exn => exact Or.inl (by simp [batch_go, hq, hseo])
    rcases hcond : (!truthyDict seo_data || !truthyOS (envs iter).socialSummary) with _ | _
    case true =>
      have hstep : batch_go envs interval start (fuel + 1) iter cnt s
          = batch_go envs interval start fuel (iter + 1) cnt
              (save_data { s with data := { s.data with topics_queue := rest } }) := by
        simp [batch_go, hq, hseo, hcond]
      rw [hstep]
      rcases ih (iter + 1) cnt
          (save_data { s with data := { s.data with topics_queue := rest } }) with h | h
      · rw [h]; exact Or.inr rfl
      · exact Or.inr h
    case false =>
      rcases hpub : (envs iter).publish
          { runArgs s.data topic seo_data
              ((envs iter).socialSummary.getD "") (envs iter).imageUrl with
            schedule_time := some (start + cnt * interval) } with ⟨pr⟩ | _
      case exn => exact Or.inl (by simp [batch_go, hq, hseo, hcond, hpub])
      rcases hpr : pr.anyTruthy with _ | _
      case false => exact Or.inl (by simp [batch_go, hq, hseo, hcond, hpub, hpr])
      case true =>
        have hstep : batch_go envs interval start (fuel + 1) iter cnt s
            = batch_go envs interval start fuel (iter + 1) (cnt + 1)
                (save_data { s with data := { s.data with
                  topics_queue := rest
                  posted_log := s.data.posted_log ++
                    [{ topic := topic, timestamp := (envs iter).now,
                       scheduled_for := some (toString (start + cnt * interval)),
                       status := some "scheduled", post_ids := pr }] } }) := by
          simp [batch_go, hq, hseo, hcond, hpub, hpr]
        rw [hstep]
        rcases ih (iter + 1) (cnt + 1)
            (save_data { s with data := { s.data with
              topics_queue := rest
              posted_log := s.data.posted_log ++
                [{ topic := topic, timestamp := (envs iter).now,
                   scheduled_for := some (toString (start + cnt * interval)),
                   status := some "scheduled", post_ids := pr }] } }) with h | h
        · rw [h]; exact Or.inr rfl
        · exact Or.inr h

/-- C5: every mutation of the persisted state is a wholesale
read-modify-write — `load_data` reads the whole document (or defaults it when
the file is absent), and each mutating operation either leaves the file
untouched or writes the entire current document back in one `save_data`
(there is no partial or field-level file update). -/
theorem persistence_wholesale :
    (∀ d : JMData, load_data (some d) = d) ∧
    (load_data none = defaultData) ∧
    (∀ s, save_data s = { s with file := some s.data }) ∧
    (∀ t s, (add_topic t s).file = some (add_topic t s).data) ∧
    (∀ p q s, (set_target_page p q s).file = some (set_target_page p q s).data) ∧
    (∀ e s, run_job e s = s ∨ (run_job e s).file = some (run_job e s).data) ∧
    (∀ envs start s, batch_schedule envs start s = s ∨
      (batch_schedule envs start s).file = some (batch_schedule envs start s).data) := by
  refine ⟨fun _ => rfl, rfl, fun _ => rfl, fun _ _ => rfl, fun _ _ _ => rfl,
    run_job_wholesale, fun envs start s => ?_⟩
  exact batch_go_wholesale envs _ start _ 0 0 s

/-- C1: with a non-empty queue, once generation produced truthy content and
the publish step returned a results dict with at least one truthy platform
id, `run_job` removes exactly the first topic from `topics_queue`, appends
exactly one record (topic, timestamp, platform post ids) at the end of
`posted_log`, and saves the document; with an empty queue it returns the
state unchanged. -/
theorem run_job_first_topic (e : RunEnv) (s : Sys) :
    (s.data.topics_queue = [] → run_job e s = s) ∧
    (∀ t rest seo_data pr,
      s.data.topics_queue = t :: rest →
      e.seoData = Outcome.ok seo_data →
      truthyDict seo_data = true →
      truthyOS e.socialSummary = true →
      e.publish (runArgs s.data t seo_data (e.socialSummary.getD "") e.imageUrl)
        = Outcome.ok pr →
      pr.anyTruthy = true →
      (run_job e s).data.topics_queue = rest ∧
      (run_job e s).data.posted_log = s.data.posted_log ++
        [{ topic := t, timestamp := e.now, scheduled_for := none,
           status := none, post_ids := pr }] ∧
      (run_job e s).file = some (run_job e s).data) := by
  constructor
  · intro h
    simp [run_job, h]
  · intro t rest seo_data pr hq hseo htd hts hpub hpr
    have hstep : run_job e s = save_data { s with data := { s.data with
        topics_queue := rest
        posted_log := s.data.posted_log ++
          [{ topic := t, timestamp := e.now, scheduled_for := none,
             status := none, post_ids := pr }] } } := by
      simp [run_job, hq, hseo, htd, hts, hpub, hpr]
    rw [hstep]
    exact ⟨rfl, rfl, rfl⟩

/-- Concrete SEO bundle for the C1 witness. -/
def c1Seo : SeoDict := [("meta_title", "T1"), ("html_content", "<p>body</p>")]

/-- Concrete publish results for the C1 witness. -/
def c1Pr : PubResults := { wordpress := some (some "11"), facebook := none }

/-- Concrete oracle for the C1 witness. -/
def c1Env : RunEnv :=
  { seoData := Outcome.ok c1Seo
    socialSummary := some "hook"
    imageUrl := none
    publish := fun _ => Outcome.ok c1Pr
    now := "2026-01-01T00:00:00" }

/-- Concrete state for the C1 witness. -/
def c1Sys : Sys :=
  { data := { defaultData with topics_queue := ["alpha", "beta"] }, file := none }

/-- C1 witness: the theorem evaluated on a two-topic queue with a successful
environment. -/
theorem run_job_first_topic_witness :
    (run_job c1Env c1Sys).data.topics_queue = ["beta"] ∧
    (run_job c1Env c1Sys).data.posted_log =
      [{ topic := "alpha", timestamp := "2026-01-01T00:00:00",
         scheduled_for := none, status := none, post_ids := c1Pr }] ∧
    (run_job c1Env c1Sys).file = some (run_job c1Env c1Sys).data := by
  have h := (run_job_first_topic c1Env c1Sys).2 "alpha" ["beta"] c1Seo c1Pr
    rfl rfl (by decide) (by decide) rfl (by decide)
  exact ⟨h.1, by rw [h.2.1]; rfl, h.2.2⟩

/-- Whether a pass's external-call outcomes let `run_job` reach its success
branch for first topic `t` of document `d`: generation returned truthy
content and the publish call returned a dict with a truthy value. -/
def envSucceeds (e : RunEnv) (d : JMData) (t : String) : Bool :=
  match e.seoData with
  | Outcome.exn => false
  | Outcome.ok seo_data =>
    truthyDict seo_data && truthyOS e.socialSummary &&
      (match e.publish (runArgs d t seo_data (e.socialSummary.getD "") e.imageUrl) with
       | Outcome.exn => false
       | Outcome.ok pr => pr.anyTruthy)

/-- C2: `run_job` aborts atomically — if the pass is not a success (content
generation raised or returned a falsy sentinel, the publish step raised, or
no platform reported a truthy id), the whole state, the in-memory
`topics_queue` and `posted_log` as well as the `queue.json` file, is exactly
as before the call. -/
theorem run_job_atomic_on_failure (e : RunEnv) (s : Sys)
    (h : ∀ t rest, s.data.topics_queue = t :: rest → envSucceeds e s.data t = false) :
    run_job e s = s := by
  rcases hq : s.data.topics_queue with _ | ⟨t, rest⟩
  · simp [run_job, hq]
  have hf := h t rest hq
  rcases hseo : e.seoData with ⟨seo_data⟩ | _
  case exn => simp [run_job, hq, hseo]
  rcases htd : truthyDict seo_data with _ | _
  case false => simp [run_job, hq, hseo, htd]
  rcases hts : truthyOS e.socialSummary with _ | _
  case false => simp [run_job, hq, hseo, htd, hts]
  rcases hpub : e.publish (runArgs s.data t seo_data (e.socialSummary.getD "")
      e.imageUrl) with ⟨pr⟩ | _
  case exn => simp [run_job, hq, hseo, htd, hts, hpub]
  have hpr : pr.anyTruthy = false := by
    simp [envSucceeds, hseo, htd, hts, hpub] at hf
    exact hf
  simp [run_job, hq, hseo, htd, hts, hpub, hpr]

/-- Concrete failing oracle for the C2 witness: content generation raises. -/
def c2Env : RunEnv :=
  { seoData := Outcome.exn
    socialSummary := none
    imageUrl := none
    publish := fun _ => Outcome.exn
    now := "2026-01-01T00:00:00" }

/-- Concrete state for the C2 witness. -/
def c2Sys : Sys :=
  { data := { defaultData with topics_queue := ["gamma"] }
    file := some { defaultData with topics_queue := ["gamma"] } }

/-- C2 witness: a failing pass leaves the state (memory and file) exactly
unchanged. -/
theorem run_job_atomic_on_failure_witness : run_job c2Env c2Sys = c2Sys :=
  run_job_atomic_on_failure c2Env c2Sys (fun _ _ _ => rfl)

/-- A sequence of `add_topic` calls, in order. -/
def add_topic_list (ts : List String) (s : Sys) : Sys :=
  ts.foldl (fun acc t => add_topic t acc) s

/-- A sequence of `run_job` calls, each pass drawing its external-call
outcomes from the corresponding environment. -/
def run_jobs (es : List RunEnv) (s : Sys) : Sys :=
  es.foldl (fun acc e => run_job e acc) s

/-- A pass environment under which `run_job` surely succeeds: generation
returns truthy content and every publish call returns a dict with a truthy
value. -/
def EnvGood (e : RunEnv) : Prop :=
  (∃ seo_data, e.seoData = Outcome.ok seo_data ∧ truthyDict seo_data = true) ∧
  truthyOS e.socialSummary = true ∧
  (∀ args, ∃ pr, e.publish args = Outcome.ok pr ∧ pr.anyTruthy = true)

/-- Helper: `add_topic` calls append at the end of the queue, in order, and
never touch the log. -/
theorem add_topic_list_queue :
    ∀ (ts : List String) (s : Sys),
      (add_topic_list ts s).data.topics_queue = s.data.topics_queue ++ ts ∧
      (add_topic_list ts s).data.posted_log = s.data.posted_log := by
  intro ts
  induction ts with
  | nil => intro s; exact ⟨by simp [add_topic_list], rfl⟩
  | cons t ts ih =>
    intro s
    have h := ih (add_topic t s)
    constructor
    · show (add_topic_list ts (add_topic t s)).data.topics_queue = _
      rw [h.1]
      show (s.data.topics_queue ++ [t]) ++ ts = s.data.topics_queue ++ t :: ts
      simp
    · show (add_topic_list ts (add_topic t s)).data.posted_log = _
      rw [h.2]
      rfl

/-- Helper: under a good environment, `run_job` pops the first topic and
appends a record for exactly that topic. -/
theorem run_job_good (e : RunEnv) (he : EnvGood e) (s : Sys) (t : String)
    (rest : List String) (hq : s.data.topics_queue = t :: rest) :
    (run_job e s).data.topics_queue = rest ∧
    (run_job e s).data.posted_log.map LogEntry.topic
      = s.data.posted_log.map LogEntry.topic ++ [t] := by
  obtain ⟨⟨seo_data, hseo, htd⟩, hts, hpuball⟩ := he
  obtain ⟨pr, hpub, hpr⟩ :=
    hpuball (runArgs s.data t seo_data (e.socialSummary.getD "") e.imageUrl)
  have hstep : run_job e s = save_data { s with data := { s.data with
      topics_queue := rest
      posted_log := s.data.posted_log ++
        [{ topic := t, timestamp := e.now, scheduled_for := none,
           status := none, post_ids := pr }] } } := by
    simp [run_job, hq, hseo, htd, hts, hpub, hpr]
  rw [hstep]
  exact ⟨rfl, by simp [save_data]⟩

/-- Helper: a string of good `run_job` passes consumes the queue from the
front and logs the consumed prefix in order. -/
theorem run_jobs_fifo :
    ∀ (es : List RunEnv) (s : Sys), (∀ e ∈ es, EnvGood e) →
      es.length ≤ s.data.topics_queue.length →
      (run_jobs es s).data.topics_queue = s.data.topics_queue.drop es.length ∧
      (run_jobs es s).data.posted_log.map LogEntry.topic
        = s.data.posted_log.map LogEntry.topic ++
            s.data.topics_queue.take es.length := by
  intro es
  induction es with
  | nil => intro s _ _; exact ⟨by simp [run_jobs], by simp [run_jobs]⟩
  | cons e es ih =>
    intro s hg hlen
    rcases hq : s.data.topics_queue with _ | ⟨t, rest⟩
    · rw [hq] at hlen; simp at hlen
    have h1 := run_job_good e (hg e (by simp)) s t rest hq
    have hlen' : es.length ≤ (run_job e s).data.topics_queue.length := by
      rw [h1.1]
      rw [hq] at hlen
      simpa using Nat.le_of_succ_le_succ hlen
    have h2 := ih (run_job e s) (fun x hx => hg x (by simp [hx])) hlen'
    constructor
    · show (run_jobs es (run_job e s)).data.topics_queue = _
      rw [h2.1, h1.1]
      rfl
    · show (run_jobs es (run_job e s)).data.posted_log.map LogEntry.topic = _
      rw [h2.2, h1.2, h1.1]
      simp

/-- C6: the topic queue is FIFO — starting from an empty queue, adding the
topics `ts` in order and then performing `k = es.length ≤ ts.length`
successful `run_job` passes logs exactly the first `k` added topics, in
exactly the order they were added, leaving the rest queued in order. -/
theorem fifo_processing_order (s : Sys) (ts : List String) (es : List RunEnv)
    (h0 : s.data.topics_queue = []) (hg : ∀ e ∈ es, EnvGood e)
    (hlen : es.length ≤ ts.length) :
    (run_jobs es (add_topic_list ts s)).data.posted_log.map LogEntry.topic
      = s.data.posted_log.map LogEntry.topic ++ ts.take es.length ∧
    (run_jobs es (add_topic_list ts s)).data.topics_queue = ts.drop es.length := by
  have hadd := add_topic_list_queue ts s
  have hq : (add_topic_list ts s).data.topics_queue = ts := by
    rw [hadd.1, h0]; rfl
  have h := run_jobs_fifo es (add_topic_list ts s) hg (by rw [hq]; exact hlen)
  refine ⟨?_, by rw [h.1, hq]⟩
  rw [h.2, hadd.2, hq]

/-- Concrete good oracle for the C6 witness. -/
def c6Env : RunEnv :=
  { seoData := Outcome.ok [("meta_title", "T")]
    socialSummary := some "hook"
    imageUrl := none
    publish := fun _ => Outcome.ok { wordpress := some (some "7"), facebook := none }
    now := "2026-01-02T00:00:00" }

/-- C6 witness: two added topics, one successful pass — the first added topic
is the one logged, the second stays queued. -/
theorem fifo_processing_order_witness :
    (run_jobs [c6Env] (add_topic_list ["a1", "a2"]
        { data := defaultData, file := none })).data.posted_log.map LogEntry.topic
      = ["a1"] ∧
    (run_jobs [c6Env] (add_topic_list ["a1", "a2"]
        { data := defaultData, file := none })).data.topics_queue = ["a2"] := by
  have h := fifo_processing_order { data := defaultData, file := none }
    ["a1", "a2"] [c6Env] rfl
    (fun e he => by
      rw [List.mem_singleton] at he
      rw [he]
      exact ⟨⟨[("meta_title", "T")], rfl, rfl⟩, rfl,
        fun _ => ⟨{ wordpress := some (some "7"), facebook := none }, rfl, by decide⟩⟩)
    (by decide)
  exact h

/-- C9: in `publish_content`, every WordPress attempt precedes every Facebook
attempt in the call trace; the message handed to `fb.post` is the social
summary with the read-more line appended exactly when the WordPress post
succeeded with a truthy link (and is the bare social summary otherwise); the
results dict has a `wordpress` key only when the WordPress post succeeded,
and a `facebook` key only when both `fb_page_id` and `fb_access_token` are
provided (truthy). -/
theorem publish_content_spec (topic article_content social_summary : String)
    (image_url : Option String) (fb_page_id fb_access_token : Option String)
    (schedule_time : Option Nat) (meta_description alt_text : Option String)
    (wpenv : WpEnv) (fbPost : String → Option String) :
    (publish_content topic article_content social_summary image_url fb_page_id
        fb_access_token schedule_time meta_description alt_text wpenv
        fbPost).2.filter Ev.isWp ++
      (publish_content topic article_content social_summary image_url fb_page_id
        fb_access_token schedule_time meta_description alt_text wpenv
        fbPost).2.filter Ev.isFb
      = (publish_content topic article_content social_summary image_url fb_page_id
          fb_access_token schedule_time meta_description alt_text wpenv
          fbPost).2 ∧
    (∀ m, Ev.fbPost m ∈ (publish_content topic article_content social_summary
        image_url fb_page_id fb_access_token schedule_time meta_description
        alt_text wpenv fbPost).2 →
      match wpSuccLink wpenv with
      | some l => m = social_summary ++ "\n\nRead more: " ++ l ∧ m ≠ social_summary
      | none => m = social_summary) ∧
    ((publish_content topic article_content social_summary image_url fb_page_id
        fb_access_token schedule_time meta_description alt_text wpenv
        fbPost).1.wordpress ≠ none →
      wpenv.enabled = true ∧ wpenv.postResult ≠ none) ∧
    ((publish_content topic article_content social_summary image_url fb_page_id
        fb_access_token schedule_time meta_description alt_text wpenv
        fbPost).1.facebook ≠ none →
      truthyOS fb_page_id = true ∧ truthyOS fb_access_token = true) := by
  have hmsg : ∀ wl, fbMessage social_summary wl
      = match (match wl with
               | some l => if l != "" then some l else none
               | none => none) with
        | some l => social_summary ++ "\n\nRead more: " ++ l
        | none => social_summary := by
    intro wl
    rcases wl with _ | l
    · rfl
    · rcases hl : (l != "") with _ | _ <;> simp [fbMessage, hl]
  have hne : ∀ l : String, social_summary ++ "\n\nRead more: " ++ l ≠ social_summary := by
    intro l h
    have := congrArg String.length h
    simp [String.length_append] at this
    have h13 : ("\n\nRead more: " : String).length = 13 := rfl
    omega
  rcases hen : wpenv.enabled with _ | _
  · rcases hfb : (truthyOS fb_page_id && truthyOS fb_access_token) with _ | _
    · refine ⟨?_, ?_, ?_, ?_⟩ <;>
        simp [publish_content, wpSuccLink, hen, hfb]
    · have hfb' := hfb
      rw [Bool.and_eq_true] at hfb'
      refine ⟨?_, ?_, ?_, ?_⟩
      · simp [publish_content, hen, hfb, Ev.isWp, Ev.isFb]
      · intro m hm
        simp [publish_content, hen, hfb] at hm
        simp [wpSuccLink, hen, hm, fbMessage]
      · simp [publish_content, hen, hfb]
      · intro _; exact hfb'
  · rcases hpr : wpenv.postResult with _ | ⟨r⟩ <;>
      rcases hfb : (truthyOS fb_page_id && truthyOS fb_access_token) with _ | _
    · refine ⟨?_, ?_, ?_, ?_⟩ <;>
        simp [publish_content, wpSuccLink, hen, hpr, hfb, Ev.isWp, Ev.isFb]
    · have hfb' := hfb
      rw [Bool.and_eq_true] at hfb'
      refine ⟨?_, ?_, ?_, ?_⟩
      · simp [publish_content, hen, hpr, hfb, Ev.isWp, Ev.isFb]
      · intro m hm
        simp [publish_content, hen, hpr, hfb] at hm
        simp [wpSuccLink, hen, hpr, hm, fbMessage]
      · simp [publish_content, hen, hpr, hfb]
      · intro _; exact hfb'
    · refine ⟨?_, ?_, ?_, ?_⟩ <;>
        simp [publish_content, wpSuccLink, hen, hpr, hfb, Ev.isWp, Ev.isFb]
    · have hfb' := hfb
      rw [Bool.and_eq_true] at hfb'
      refine ⟨?_, ?_, ?_, ?_⟩
      · simp [publish_content, hen, hpr, hfb, Ev.isWp, Ev.isFb]
      · intro m hm
        simp [publish_content, hen, hpr, hfb] at hm
        rw [hm, hmsg r.link]
        rcases hl : r.link with _ | l
        · simp [wpSuccLink, hen, hpr, hl]
        · rcases hlt : (l != "") with _ | _
          · simp [wpSuccLink, hen, hpr, hl, hlt]
          · simp [wpSuccLink, hen, hpr, hl, hlt]
            exact hne l
      · simp [publish_content, hen, hpr, hfb]
      · intro _; exact hfb'

/-- Concrete WordPress oracle for the C9 witness: enabled, post succeeded
with id 5 and a truthy link. -/
def c9Wp : WpEnv :=
  { enabled := true
    tags := some "tag1, tag2"
    postResult := some { id := some "5", link := some "https://blog/x" } }

/-- C9 witness: with WordPress succeeding and Facebook credentials provided,
the trace is WordPress then Facebook, the Facebook message carries the
read-more link, and both result keys obey the stated conditions. -/
theorem publish_content_spec_witness :
    ("social hook\n\nRead more: https://blog/x"
        = "social hook" ++ "\n\nRead more: " ++ "https://blog/x" ∧
      "social hook\n\nRead more: https://blog/x" ≠ "social hook") ∧
    (c9Wp.enabled = true ∧ c9Wp.postResult ≠ none) ∧
    (truthyOS (some "page1") = true ∧ truthyOS (some "tok1") = true) := by
  have h := publish_content_spec "T" "<p>a</p>" "social hook" none
    (some "page1") (some "tok1") none none none c9Wp (fun _ => some "99")
  refine ⟨?_, ?_, ?_⟩
  · have h2 := h.2.1 "social hook\n\nRead more: https://blog/x" (by decide)
    exact h2
  · exact h.2.2.1 (by decide)
  · exact h.2.2.2 (by decide)

end Synapic
